import Mathlib

/-!
Shallow embedding of `highlighter.py` (LineHighlighter).

The program is a PyQt5 overlay bar that follows the mouse cursor.  We embed
the pieces the claims are about:

* Qt colors (`Qcolor`): the code only ever writes the RGB channels through the
  8-bit constructors `QColor(r, g, b[, a])` and reads them back with
  `.red()/.green()/.blue()` (an exact round trip in Qt, which stores
  `c * 0x101` internally and returns `internal >> 8`), so we keep `r,g,b` at
  their 8-bit values.  The alpha channel, however, is driven through
  `setAlphaF`/`alphaF`, which quantize to Qt's 16-bit channel
  (`qRound(a * 65535)` on write, `a16 / 65535` on read), so we model alpha at
  16-bit precision.
* Python floats for `alpha` as exact decimals (`Dec`): every alpha in the
  program originates from a `QDoubleSpinBox` decimal and `float(str(x)) == x`
  holds exactly in Python, so the decimal value is the faithful semantics of
  the stored/loaded float.
* The `QSettings` store as a partial map from the four keys to stored strings,
  with strings classified by shape (`StoredVal`): a decimal-integer numeral, a
  decimal-point literal, a `#rrggbb` color name, or anything else (`junk`,
  on which both `int()` and `float()` raise).
* `HighlightBar`, `SettingsDialog` loading/saving, and the `Controller`
  state machine (`toggle_highlighter` / `start_highlighter` /
  `stop_highlighter` / `live_update_settings`), with object identity of the
  overlay tracked by an `id` drawn from a fresh-id counter.
* Python object-identity semantics of the dataclass default color
  (a heap of mutable color objects) for the sharing claim.
-/

/-- Qt's `qRound`, on the nonnegative rationals the code feeds it:
round half away from zero, which for `x ≥ 0` is `⌊x + 1/2⌋`. -/
def qRound (x : ℚ) : ℤ := ⌊x + 1/2⌋

/-- A Qt `QColor` as the program uses it: 8-bit red/green/blue (written and
read only through the 8-bit API, an exact round trip) and the 16-bit alpha
channel `a16` that `setAlphaF`/`alphaF` actually touch. -/
structure Qcolor where
  r : ℕ
  g : ℕ
  b : ℕ
  a16 : ℕ
  deriving Repr, DecidableEq

/-- The constructor `QColor(r, g, b)`: alpha defaults to opaque (255, i.e. 65535 internally). -/
def mkQColor (r g b : ℕ) : Qcolor := ⟨r, g, b, 65535⟩

/-- The constructor `QColor(r, g, b, a)` with an 8-bit alpha: Qt stores `a * 0x101`. -/
def mkQColorA (r g b a : ℕ) : Qcolor := ⟨r, g, b, a * 257⟩

/-- Qt's `QColor.setAlphaF(x)`: store `qRound(x * 65535)` in the 16-bit channel. -/
def Qcolor.setAlphaF (c : Qcolor) (x : ℚ) : Qcolor :=
  { c with a16 := (qRound (x * 65535)).toNat }

/-- Qt's `QColor.alphaF()`: the 16-bit channel read back as a real in `[0,1]`. -/
def Qcolor.alphaF (c : Qcolor) : ℚ := (c.a16 : ℚ) / 65535

/-- Qt's `QColor.name()`: the `#rrggbb` string; it exposes exactly the RGB triple
and discards alpha, so we model it by the triple itself. -/
def Qcolor.name (c : Qcolor) : ℕ × ℕ × ℕ := (c.r, c.g, c.b)

/-- A Python float that arose from a decimal literal / decimal spin box:
value `m / 10 ^ e`.  `str`/`float` round-trip such floats exactly. -/
structure Dec where
  m : ℕ
  e : ℕ
  deriving Repr, DecidableEq

/-- The rational value a `Dec` denotes. -/
def Dec.val (d : Dec) : ℚ := (d.m : ℚ) / 10 ^ d.e

/-- The `Settings` dataclass of `highlighter.py`.  Its fields are exactly
`width`, `height`, `alpha`, `color` — there is no `abort_key` field in the
source, which is what `Settings.fieldNames` records. -/
structure Settings where
  width : ℕ
  height : ℕ
  alpha : Dec
  color : Qcolor
  deriving Repr, DecidableEq

/-- The field list of the `Settings` dataclass as declared in the source;
attribute access on any other name raises `AttributeError` in Python. -/
def Settings.fieldNames : List String := ["width", "height", "alpha", "color"]

/-- The dataclass default color `QtGui.QColor(255, 255, 0, int(0.3 * 255))`;
`int(0.3 * 255)` truncates the double `76.499…` to `76`. -/
def defaultColor : Qcolor := mkQColorA 255 255 0 76

/-- The value of `Settings()` with every field at its dataclass default:
`width=800`, `height=30`, `alpha=0.3`, `color=QColor(255,255,0,76)`. -/
def defaultSettings : Settings := ⟨800, 30, ⟨3, 1⟩, defaultColor⟩

/-! ## The screen environment

`QCursor.pos()`, `QApplication.screenAt(pos)` and the primary screen are the
ambient windowing state a tick reads.  A `Screen` is the geometry the code
uses: origin x and width. -/

structure Screen where
  x : ℤ
  width : ℕ
  deriving Repr, DecidableEq

structure Env where
  cursor : ℤ × ℤ
  /-- Model of `QApplication.screenAt(QCursor.pos())`: `none` when the OS cannot
  resolve a screen for the point. -/
  screenAt : Option Screen
  /-- Model of `QApplication.primaryScreen().size().width()`. -/
  primaryWidth : ℕ
  deriving Repr, DecidableEq

/-- The screen width used by `HighlightBar.__init__` / `update_settings`:
the width of the screen under the cursor, else the primary screen's width. -/
def Env.screenW (env : Env) : ℕ :=
  match env.screenAt with
  | some scr => scr.width
  | none => env.primaryWidth

/-! ## HighlightBar -/

/-- The mutable state of a `HighlightBar` widget.  `id` models Python object
identity (two distinct constructions get distinct ids).  `color` is the
widget's `_color` attribute; `pos` the window position set by `move`. -/
structure HighlightBar where
  id : ℕ
  settings : Settings
  desired_width : ℕ
  desired_height : ℕ
  color : Qcolor
  pos : ℤ × ℤ
  click_through_applied : Bool
  deriving Repr, DecidableEq

/-- The constructor `HighlightBar.__init__(settings)`: resolve the screen under the cursor
(primary-screen width as fallback), set `_desired_width = min(width, screen_w)`,
`_desired_height = height`, alias `_color = settings.color`, start with
click-through not applied.  The widget's position is not set here. -/
def HighlightBar.mk' (env : Env) (id : ℕ) (settings : Settings) : HighlightBar :=
  { id := id
    settings := settings
    desired_width := min settings.width env.screenW
    desired_height := settings.height
    color := settings.color
    pos := (0, 0)
    click_through_applied := false }

/-- The method `HighlightBar.apply_click_through`: a one-way flag (the per-platform
native calls are best-effort side effects with no observable state here). -/
def HighlightBar.apply_click_through (hb : HighlightBar) : HighlightBar :=
  { hb with click_through_applied := true }

/-- The method `HighlightBar.update_settings(settings)`: replace the settings, recompute
`_desired_width = min(settings.width, screen_w)` from the screen under the
cursor, set the height, and rebuild `_color` as a fresh
`QColor(red, green, blue)` of the new settings color (dropping its alpha). -/
def HighlightBar.update_settings (env : Env) (settings : Settings)
    (hb : HighlightBar) : HighlightBar :=
  { hb with
    settings := settings
    desired_width := min settings.width env.screenW
    desired_height := settings.height
    color := mkQColor settings.color.r settings.color.g settings.color.b }

/-- The method `HighlightBar.update_position` (the 10 ms timer tick): if a screen
resolves for the cursor, recompute `new_width = min(settings.width, screen_w)`
and adopt it when it changed, and take `x` from that screen's origin;
otherwise fall back to `x = 0`.  Then move to
`(x, cursor.y - desired_height // 2)` and repaint. -/
def HighlightBar.update_position (env : Env) (hb : HighlightBar) : HighlightBar :=
  match env.screenAt with
  | some scr =>
      let new_width := min hb.settings.width scr.width
      let hb' := if new_width ≠ hb.desired_width
        then { hb with desired_width := new_width } else hb
      { hb' with pos := (scr.x, env.cursor.2 - (hb'.desired_height / 2 : ℕ)) }
  | none =>
      { hb with pos := (0, env.cursor.2 - (hb.desired_height / 2 : ℕ)) }

/-- The method `HighlightBar.paintEvent`: build a fresh `QColor` from the RGB components
of `_color` (its alpha is never read), apply `settings.alpha` via `setAlphaF`,
and fill the window with it.  The returned color is the fill color used. -/
def HighlightBar.paintEvent (hb : HighlightBar) : Qcolor :=
  (mkQColor hb.color.r hb.color.g hb.color.b).setAlphaF hb.settings.alpha.val

/-! ## The preferences store (`QSettings`) -/

/-- A stored preference string, classified by the shape that decides how
Python's `int()` / `float()` / `QColor(str)` treat it. -/
inductive StoredVal
  /-- the decimal numeral of `n`, e.g. `"800"` (what `str(width)` writes) -/
  | natStr (n : ℕ)
  /-- a decimal literal with a point, value `m / 10 ^ e`, e.g. `"0.3"`
  (what `str(alpha)` writes); `int()` raises on it, `float()` parses it -/
  | decStr (m e : ℕ)
  /-- a `"#rrggbb"` color name (what `QColor.name()` writes) -/
  | hexColor (r g b : ℕ)
  /-- any other string: both `int()` and `float()` raise `ValueError` -/
  | junk
  deriving Repr, DecidableEq

/-- Python `int(s)` on a stored string: succeeds only on an integer numeral. -/
def pyInt : StoredVal → Option ℕ
  | .natStr n => some n
  | _ => none

/-- Python `float(s)` on a stored string: succeeds on integer numerals and
decimal literals. -/
def pyFloat : StoredVal → Option Dec
  | .natStr n => some ⟨n, 0⟩
  | .decStr m e => some ⟨m, e⟩
  | _ => none

/-- Parsing `QColor(color_hex)`: a `#rrggbb` name yields that RGB at opaque alpha;
any other string yields the invalid color (black, per Qt). -/
def parseColorHex : StoredVal → Qcolor
  | .hexColor r g b => mkQColor r g b
  | _ => ⟨0, 0, 0, 65535⟩

/-- The `QSettings('LineHighlighter', 'LineHighlighter')` store restricted to
the four preference keys; `none` models a missing key. -/
structure Store where
  width : Option StoredVal
  height : Option StoredVal
  alpha : Option StoredVal
  color : Option StoredVal
  deriving Repr, DecidableEq

/-- What `SettingsDialog.__init__` ends up with after reading preferences:
the spin-box initial values and the dialog's `self.color`. -/
structure LoadedPrefs where
  width : ℕ
  height : ℕ
  alpha : Dec
  color : Qcolor
  deriving Repr, DecidableEq

/-- The preference-loading portion of `SettingsDialog.__init__`: read each key
with its default string (`str(screen_w)`, `'30'`, `'0.3'`, `'#ffff00'`), then
convert `width`, `height`, `alpha` inside one `try`: if any of the three
conversions raises, the single `except` clause puts all three at their
hard-coded defaults (`screen_w`, `30`, `0.3`).  The color string is handed to
`QColor` as-is.  The function is total: construction is never aborted. -/
def loadPrefs (screen_w : ℕ) (st : Store) : LoadedPrefs :=
  let width_value := st.width.getD (.natStr screen_w)
  let height_value := st.height.getD (.natStr 30)
  let alpha_value := st.alpha.getD (.decStr 3 1)
  let color_hex := st.color.getD (.hexColor 255 255 0)
  let numeric : ℕ × ℕ × Dec :=
    match pyInt width_value, pyInt height_value, pyFloat alpha_value with
    | some w, some h, some a => (w, h, a)
    | _, _, _ => (screen_w, 30, ⟨3, 1⟩)
  { width := numeric.1
    height := numeric.2.1
    alpha := numeric.2.2
    color := parseColorHex color_hex }

/-- The method `SettingsDialog.save_settings(s)`: write `str(width)`, `str(height)`,
`str(alpha)` and `color.name()` under the four keys. -/
def save_settings (s : Settings) (st : Store) : Store :=
  { st with
    width := some (.natStr s.width)
    height := some (.natStr s.height)
    alpha := some (.decStr s.alpha.m s.alpha.e)
    color := some (.hexColor s.color.r s.color.g s.color.b) }

/-- The dialog state `get_settings` reads: the three spin boxes and the
dialog's current `self.color`. -/
structure DialogState where
  width_spin : ℕ
  height_spin : ℕ
  alpha_spin : Dec
  color : Qcolor
  deriving Repr, DecidableEq

/-- The method `SettingsDialog.get_settings`: copy `self.color`, overwrite its alpha
channel with the spin-box alpha via `setAlphaF`, and bundle the snapshot. -/
def get_settings (dlg : DialogState) : Settings :=
  let colour := (Qcolor.mk dlg.color.r dlg.color.g dlg.color.b dlg.color.a16).setAlphaF
      dlg.alpha_spin.val
  { width := dlg.width_spin
    height := dlg.height_spin
    alpha := dlg.alpha_spin
    color := colour }

/-! ## Controller -/

/-- The Controller's mutable state.  `nextId` is the fresh-id counter for
overlay object identity.  `listeners` is the set of registered global
abort-key listeners; no Controller code path ever constructs a
`HotkeyListener`, so no operation below touches it. -/
structure CtrlState where
  overlay : Option HighlightBar
  nextId : ℕ
  store : Store
  listeners : List ℕ
  highlighter_active : Bool
  deriving Repr, DecidableEq

/-- The constructor `Controller.__init__` (state part): no overlay, nothing registered. -/
def initCtrl (st : Store) : CtrlState :=
  { overlay := none, nextId := 0, store := st, listeners := [],
    highlighter_active := false }

/-- The method `Controller.start_highlighter`: snapshot the dialog settings, persist
them, create a fresh `HighlightBar`, show it, flush events, apply
click-through. -/
def start_highlighter (env : Env) (dlg : DialogState) (st : CtrlState) :
    CtrlState :=
  let settings := get_settings dlg
  { st with
    store := save_settings settings st.store
    overlay := some ((HighlightBar.mk' env st.nextId settings).apply_click_through)
    nextId := st.nextId + 1 }

/-- The method `Controller.stop_highlighter`: guarded by `if self.overlay:` — close and
drop the overlay when one exists, otherwise do nothing.  No raising path. -/
def stop_highlighter (st : CtrlState) : CtrlState :=
  match st.overlay with
  | some _ => { st with overlay := none }
  | none => st

/-- The method `Controller.toggle_highlighter`: start when no overlay handle exists,
stop when one does; update the button state accordingly. -/
def toggle_highlighter (env : Env) (dlg : DialogState) (st : CtrlState) :
    CtrlState :=
  match st.overlay with
  | none => { start_highlighter env dlg st with highlighter_active := true }
  | some _ => { stop_highlighter st with highlighter_active := false }

/-- The method `Controller.live_update_settings`: the local `settings` is assigned only
inside the `if self.overlay is not None:` block, yet the trailing
`self.dialog.save_settings(settings)` runs unconditionally — so with no
overlay the function raises `UnboundLocalError` (modelled as `.error`).
With an overlay: compare `overlay._color.name()` against the new color's
name; on a difference, close the overlay and create a fresh one at the old
position; otherwise mutate the existing overlay via `update_settings`.
Then persist the snapshot. -/
def live_update_settings (env : Env) (dlg : DialogState) (st : CtrlState) :
    Except String CtrlState :=
  match st.overlay with
  | some ov =>
      let settings := get_settings dlg
      let current_color := ov.color.name
      let new_color := settings.color.name
      if current_color ≠ new_color then
        let old_pos := ov.pos
        let ov2 := { HighlightBar.mk' env st.nextId settings with pos := old_pos }
        let ov2 := ov2.apply_click_through
        .ok { st with
          overlay := some ov2
          nextId := st.nextId + 1
          store := save_settings settings st.store }
      else
        .ok { st with
          overlay := some (ov.update_settings env settings)
          store := save_settings settings st.store }
  | none =>
      .error "UnboundLocalError: local variable settings referenced before assignment"

/-! ## Python object-identity semantics of the dataclass default color

A Python `@dataclass` evaluates a field default once, at class-definition
time; every `Settings()` then binds the very same object.  We make that
visible with an explicit heap of mutable color objects addressed by `Ref`s:
`moduleHeap` is the heap after the module body ran (it holds the one default
`QColor(255, 255, 0, 76)`), and `mkDefaultSettings` is `Settings()` — its
`colorRef` is the shared `defaultColorRef` in every call. -/

/-- A mutable `QColor` object on the Python heap. -/
structure HColor where
  r : ℕ
  g : ℕ
  b : ℕ
  a16 : ℕ
  deriving Repr, DecidableEq

/-- A reference (object identity) into the heap. -/
abbrev Ref := ℕ

/-- The heap of live `QColor` objects, addressed by position. -/
abbrev Heap := List HColor

/-- The heap after the module body: the single dataclass default color
`QtGui.QColor(255, 255, 0, int(0.3 * 255))`, evaluated exactly once. -/
def moduleHeap : Heap := [⟨255, 255, 0, 76 * 257⟩]

/-- The reference to that one default color object. -/
def defaultColorRef : Ref := 0

/-- A `Settings` value as Python holds it: the `color` field is a reference
to a heap object, not a copy of its contents. -/
structure PySettings where
  width : ℕ
  height : ℕ
  alpha : Dec
  colorRef : Ref
  deriving Repr, DecidableEq

/-- Calling `Settings()`: the dataclass constructor with no arguments binds each
field to its (already-evaluated) default — in particular `colorRef` is the
shared `defaultColorRef`, with no copy made. -/
def mkDefaultSettings : PySettings := ⟨800, 30, ⟨3, 1⟩, defaultColorRef⟩

/-- Mutation `c.setRed(v)` on the heap object behind `ref`: in-place mutation. -/
def heapSetRed (h : Heap) (ref : Ref) (v : ℕ) : Heap :=
  h.modify (fun c => { c with r := v }) ref

/-- Reading `c.red()` through a reference (0 for a dangling reference, which
never occurs in the runs we consider). -/
def heapRed (h : Heap) (ref : Ref) : ℕ :=
  ((h.get? ref).getD ⟨0, 0, 0, 0⟩).r

/-! ## Concrete sample states used by witnesses -/

/-- A sample environment: cursor on a 500-px-wide screen at origin 0,
primary screen 1920 px wide. -/
def env0 : Env := ⟨(100, 200), some ⟨0, 500⟩, 1920⟩

/-- A sample overlay created in `env0` from the default settings. -/
def hb0 : HighlightBar := HighlightBar.mk' env0 0 defaultSettings

/-- An empty preference store (all four keys missing). -/
def emptyStore : Store := ⟨none, none, none, none⟩

/-- The Controller right after construction: Idle, nothing registered. -/
def idleSt : CtrlState := initCtrl emptyStore

/-- An Active controller state owning `hb0`. -/
def activeSt : CtrlState :=
  { overlay := some hb0, nextId := 1, store := emptyStore, listeners := [],
    highlighter_active := true }

/-- A dialog state whose color agrees with `hb0`'s current color (yellow). -/
def dlgSame : DialogState := ⟨640, 20, ⟨1, 1⟩, mkQColorA 255 255 0 76⟩

/-- A dialog state with a different color (`#112233`). -/
def dlgDiff : DialogState := ⟨640, 20, ⟨1, 1⟩, mkQColor 17 34 51⟩

/-! ## C1: effective width -/

/-- C1: for every configured width `W` and screen width `S` of the screen
under the cursor, the overlay's effective width is `min(W, S)` — both at
creation and, re-evaluated, on every `update_position` tick, so crossing to
a screen of a different width changes the width with no explicit update
call. -/
theorem effective_width_is_min (env : Env) (scr : Screen) (i : ℕ)
    (s : Settings) (hb : HighlightBar) (h : env.screenAt = some scr) :
    (HighlightBar.mk' env i s).desired_width = min s.width scr.width ∧
    (hb.update_position env).desired_width = min hb.settings.width scr.width := by
  constructor
  · simp [HighlightBar.mk', Env.screenW, h]
  · simp only [HighlightBar.update_position, h]
    split <;> simp_all

/-- Witness for C1 at a concrete environment and overlay. -/
theorem effective_width_is_min_witness :
    (HighlightBar.mk' env0 3 defaultSettings).desired_width
        = min defaultSettings.width 500 ∧
    (hb0.update_position env0).desired_width = min hb0.settings.width 500 :=
  effective_width_is_min env0 ⟨0, 500⟩ 3 defaultSettings hb0 rfl

/-! ## C2: live settings change while Active -/

/-- C2: with an Active overlay, a settings change whose color (by `name()`)
equals the overlay's current color mutates the same overlay instance in
place (identity — the `id` — unchanged); a differing color closes the
overlay and creates a fresh instance (a new identity) positioned at the old
overlay's screen position. -/
theorem live_update_settings_identity (env : Env) (dlg : DialogState)
    (st : CtrlState) (ov : HighlightBar) (hov : st.overlay = some ov)
    (hid : ov.id < st.nextId) :
    ((get_settings dlg).color.name = ov.color.name →
      live_update_settings env dlg st =
        .ok { st with
          overlay := some (ov.update_settings env (get_settings dlg))
          store := save_settings (get_settings dlg) st.store } ∧
      (ov.update_settings env (get_settings dlg)).id = ov.id) ∧
    ((get_settings dlg).color.name ≠ ov.color.name →
      ∃ ov2, live_update_settings env dlg st =
          .ok { st with
            overlay := some ov2
            nextId := st.nextId + 1
            store := save_settings (get_settings dlg) st.store } ∧
        ov2.id ≠ ov.id ∧ ov2.pos = ov.pos) := by
  constructor
  · intro hc
    constructor
    · simp [live_update_settings, hov, hc]
    · rfl
  · intro hc
    refine ⟨({ HighlightBar.mk' env st.nextId (get_settings dlg) with
        pos := ov.pos }).apply_click_through, ?_, ?_, rfl⟩
    · simp [live_update_settings, hov, Ne.symm hc]
    · simpa [HighlightBar.apply_click_through, HighlightBar.mk'] using hid.ne'

/-- Witness for C2: both branches exercised on `activeSt` (which owns `hb0`),
once with a matching color and once with `#112233`. -/
theorem live_update_settings_identity_witness :
    (live_update_settings env0 dlgSame activeSt =
        .ok { activeSt with
          overlay := some (hb0.update_settings env0 (get_settings dlgSame))
          store := save_settings (get_settings dlgSame) activeSt.store } ∧
      (hb0.update_settings env0 (get_settings dlgSame)).id = hb0.id) ∧
    (∃ ov2, live_update_settings env0 dlgDiff activeSt =
        .ok { activeSt with
          overlay := some ov2
          nextId := activeSt.nextId + 1
          store := save_settings (get_settings dlgDiff) activeSt.store } ∧
      ov2.id ≠ hb0.id ∧ ov2.pos = hb0.pos) :=
  ⟨(live_update_settings_identity env0 dlgSame activeSt hb0 rfl (by decide)).1
      (by decide),
   (live_update_settings_identity env0 dlgDiff activeSt hb0 rfl (by decide)).2
      (by decide)⟩

/-! ## C3: persistence on settings change while Idle -/

/-- C3 (against the claim): a settings change while Idle does not persist
anything and raises — the local `settings` is only assigned under
`if self.overlay is not None:`, yet the trailing `save_settings(settings)`
runs unconditionally, so the handler hits `UnboundLocalError` whenever the
overlay is absent.  Evaluated here at a concrete Idle state. -/
theorem live_update_idle_raises :
    live_update_settings env0 dlgSame idleSt =
      .error "UnboundLocalError: local variable settings referenced before assignment" :=
  rfl

/-! ## C4: preference-load fallback -/

/-- A store with a malformed width (`"abc"`), a well-formed height (`"45"`)
and alpha (`"0.5"`), and a well-formed color. -/
def malformedStore : Store :=
  ⟨some .junk, some (.natStr 45), some (.decStr 5 1), some (.hexColor 17 34 51)⟩

/-- C4 counterexample: fallback is not per-key.  With width malformed but
height stored as `"45"` and alpha as `"0.5"`, loading yields height `30` and
alpha `0.3` — the successfully parseable values of the other keys are NOT
kept, because all three conversions sit in a single `try` block. -/
theorem loadPrefs_not_per_key :
    (loadPrefs 1920 malformedStore).height = 30 ∧
    (loadPrefs 1920 malformedStore).height ≠ 45 ∧
    (loadPrefs 1920 malformedStore).alpha = ⟨3, 1⟩ ∧
    (loadPrefs 1920 malformedStore).alpha ≠ ⟨5, 1⟩ := by
  decide

/-- C4 amended: preference loading is total (construction is never aborted)
with collective fallback over the three numeric keys — if `width`, `height`
and `alpha` (each defaulted when missing) all convert, the converted values
are used; if any one conversion fails, all three revert to the hard-coded
defaults (`screen_w`, `30`, `0.3`).  The color key is handled independently
of the numeric ones. -/
theorem loadPrefs_collective_fallback (screen_w : ℕ) (st : Store) :
    (∀ w h a, pyInt (st.width.getD (.natStr screen_w)) = some w →
      pyInt (st.height.getD (.natStr 30)) = some h →
      pyFloat (st.alpha.getD (.decStr 3 1)) = some a →
      loadPrefs screen_w st =
        ⟨w, h, a, parseColorHex (st.color.getD (.hexColor 255 255 0))⟩) ∧
    ((pyInt (st.width.getD (.natStr screen_w)) = none ∨
      pyInt (st.height.getD (.natStr 30)) = none ∨
      pyFloat (st.alpha.getD (.decStr 3 1)) = none) →
      loadPrefs screen_w st =
        ⟨screen_w, 30, ⟨3, 1⟩,
          parseColorHex (st.color.getD (.hexColor 255 255 0))⟩) := by
  constructor
  · intro w h a hw hh ha
    simp [loadPrefs, hw, hh, ha]
  · intro hfail
    rcases hfail with hw | hh | ha
    · simp [loadPrefs, hw]
    · simp only [loadPrefs]
      rcases hv : pyInt (st.width.getD (.natStr screen_w)) with _ | w <;>
        simp [hv, hh]
    · simp only [loadPrefs]
      rcases hv : pyInt (st.width.getD (.natStr screen_w)) with _ | w <;>
        rcases hv2 : pyInt (st.height.getD (.natStr 30)) with _ | h <;>
          simp [hv, hv2, ha]

/-- Witness for C4's amended statement: the all-parse branch on a fully
well-formed store, and the collective-fallback branch on `malformedStore`. -/
theorem loadPrefs_collective_fallback_witness :
    loadPrefs 1920 ⟨some (.natStr 123), some (.natStr 45), some (.decStr 5 1),
        some (.hexColor 17 34 51)⟩ =
      ⟨123, 45, ⟨5, 1⟩, parseColorHex (some (.hexColor 17 34 51) |>.getD
        (.hexColor 255 255 0))⟩ ∧
    loadPrefs 1920 malformedStore =
      ⟨1920, 30, ⟨3, 1⟩, parseColorHex (malformedStore.color.getD
        (.hexColor 255 255 0))⟩ :=
  ⟨(loadPrefs_collective_fallback 1920 _).1 123 45 ⟨5, 1⟩ rfl rfl rfl,
   (loadPrefs_collective_fallback 1920 malformedStore).2 (.inl rfl)⟩

/-! ## C5: Settings defaults and the abort key -/

/-- C5 (against the claim): the dataclass defaults are
`width = 800`, `height = 30`, `alpha = 0.3`, `color = #ffff00` — but the
`Settings` dataclass declares no `abort_key` field at all, so
`Settings().abort_key` raises `AttributeError` (the repository's own
`test_settings_defaults` expects `'esc'`). -/
theorem settings_defaults_and_missing_abort_key :
    defaultSettings.width = 800 ∧
    defaultSettings.height = 30 ∧
    defaultSettings.alpha.val = 3 / 10 ∧
    defaultSettings.color.name = (255, 255, 0) ∧
    "abort_key" ∉ Settings.fieldNames := by
  refine ⟨rfl, rfl, ?_, rfl, by decide⟩
  norm_num [defaultSettings, Dec.val]

/-! ## C6: save/load round trip -/

/-- C6: saving a `Settings` value and performing a fresh preference load
returns the same four values — `width`, `height`, the exact `alpha`, and a
color with the same `#rrggbb` name. -/
theorem save_load_roundtrip (s : Settings) (st : Store) (screen_w : ℕ) :
    (loadPrefs screen_w (save_settings s st)).width = s.width ∧
    (loadPrefs screen_w (save_settings s st)).height = s.height ∧
    (loadPrefs screen_w (save_settings s st)).alpha = s.alpha ∧
    (loadPrefs screen_w (save_settings s st)).color.name = s.color.name := by
  simp [loadPrefs, save_settings, pyInt, pyFloat, parseColorHex, mkQColor,
    Qcolor.name]

/-! ## C7: alpha through the paint path -/

/-- C7 counterexample: with the default stored alpha `0.3`, the fill alpha
actually used when painting is `19661/65535`, not `0.3` — `setAlphaF`
quantizes to Qt's 16-bit channel (`qRound(0.3 * 65535) = 19661`), and
`19661/65535 ≠ 3/10`.  So the round trip through the paint path is not
exact. -/
theorem paint_alpha_not_exact :
    hb0.settings.alpha.val = 3 / 10 ∧
    hb0.paintEvent.alphaF = 19661 / 65535 ∧
    hb0.paintEvent.alphaF ≠ hb0.settings.alpha.val := by
  have hval : hb0.settings.alpha.val = 3 / 10 := by
    norm_num [hb0, HighlightBar.mk', defaultSettings, Dec.val]
  have hround : qRound ((3 : ℚ) / 10 * 65535) = 19661 := by
    rw [qRound, show (3 : ℚ) / 10 * 65535 + 1 / 2 = ((19661 : ℤ) : ℚ) by
      norm_num]
    exact Int.floor_intCast 19661
  have hpaint : hb0.paintEvent.alphaF = 19661 / 65535 := by
    simp only [HighlightBar.paintEvent, Qcolor.setAlphaF, Qcolor.alphaF,
      mkQColor, hval, hround]
    rw [show Int.toNat 19661 = 19661 from rfl]
    norm_num
  refine ⟨hval, hpaint, ?_⟩
  rw [hpaint, hval]
  norm_num

/-- C7 amended: for every stored alpha in `[0.05, 1.0]`, the fill alpha used
when painting is the stored alpha quantized to the 16-bit channel —
`qRound(alpha * 65535) / 65535` — which differs from the stored alpha by at
most `1/131070` (and is exact only when `alpha * 65535` rounds to itself). -/
theorem paint_alpha_quantized (hb : HighlightBar)
    (h1 : 1 / 20 ≤ hb.settings.alpha.val) (h2 : hb.settings.alpha.val ≤ 1) :
    hb.paintEvent.alphaF =
      (qRound (hb.settings.alpha.val * 65535) : ℚ) / 65535 ∧
    |hb.paintEvent.alphaF - hb.settings.alpha.val| ≤ 1 / 131070 := by
  have hα : 0 ≤ hb.settings.alpha.val := le_trans (by norm_num) h1
  have hq : 0 ≤ qRound (hb.settings.alpha.val * 65535) := by
    unfold qRound
    refine Int.floor_nonneg.2 ?_
    nlinarith
  have hcast : ((qRound (hb.settings.alpha.val * 65535)).toNat : ℚ) =
      (qRound (hb.settings.alpha.val * 65535) : ℚ) := by
    exact_mod_cast Int.toNat_of_nonneg hq
  have heq : hb.paintEvent.alphaF =
      (qRound (hb.settings.alpha.val * 65535) : ℚ) / 65535 := by
    simp only [HighlightBar.paintEvent, Qcolor.setAlphaF, Qcolor.alphaF,
      mkQColor]
    rw [hcast]
  refine ⟨heq, ?_⟩
  have hfl1 : (qRound (hb.settings.alpha.val * 65535) : ℚ) ≤
      hb.settings.alpha.val * 65535 + 1 / 2 := by
    unfold qRound
    exact Int.floor_le _
  have hfl2 : hb.settings.alpha.val * 65535 + 1 / 2 - 1 <
      (qRound (hb.settings.alpha.val * 65535) : ℚ) := by
    unfold qRound
    exact Int.sub_one_lt_floor _
  rw [heq, abs_le]
  constructor <;> linarith

/-- Witness for C7's amended statement at the concrete overlay `hb0`
(stored alpha `0.3`). -/
theorem paint_alpha_quantized_witness :
    hb0.paintEvent.alphaF = (qRound (hb0.settings.alpha.val * 65535) : ℚ) / 65535 ∧
    |hb0.paintEvent.alphaF - hb0.settings.alpha.val| ≤ 1 / 131070 :=
  paint_alpha_quantized hb0
    (by norm_num [hb0, HighlightBar.mk', defaultSettings, Dec.val])
    (by norm_num [hb0, HighlightBar.mk', defaultSettings, Dec.val])

/-! ## C8: alpha carried separately from the color -/

/-- C8: painting always fills with the RGB components of the overlay's
stored color combined with the current `settings.alpha` (applied at paint
time through `setAlphaF`); an alpha component carried inside the stored
color value has no effect — repainting after overwriting that alpha channel
yields the identical fill color. -/
theorem paint_alpha_separate_from_color (hb : HighlightBar) (a : ℕ) :
    hb.paintEvent.r = hb.color.r ∧
    hb.paintEvent.g = hb.color.g ∧
    hb.paintEvent.b = hb.color.b ∧
    hb.paintEvent.a16 = (qRound (hb.settings.alpha.val * 65535)).toNat ∧
    ({ hb with color := { hb.color with a16 := a } } : HighlightBar).paintEvent
      = hb.paintEvent := by
  refine ⟨rfl, rfl, rfl, rfl, ?_⟩
  simp [HighlightBar.paintEvent, mkQColor, Qcolor.setAlphaF]

/-! ## C9: the shared mutable default color -/

/-- C9 (against the claim): the dataclass default color is evaluated once at
class definition, so every `Settings()` binds the very same `QColor` object:
two default constructions both hold `defaultColorRef`.  Mutating the color
through one (`s1.color.setRed(0)`) changes the color observed through the
other (`s2.color.red()` drops from 255 to 0) — no deep copy is made. -/
theorem default_color_shared_mutation :
    mkDefaultSettings.colorRef = defaultColorRef ∧
    heapRed moduleHeap mkDefaultSettings.colorRef = 255 ∧
    heapRed (heapSetRed moduleHeap mkDefaultSettings.colorRef 0)
      mkDefaultSettings.colorRef = 0 := by
  decide

/-! ## C10: idempotent toggling -/

/-- C10: `stop_highlighter` while Idle is a no-op (and cannot raise, being a
total function); stopping twice equals stopping once; no Controller
operation ever registers an abort-key listener (the initial state has none
and `stop` preserves the listener set, so after Active→Idle→Idle it is still
unregistered); and toggling while Active stops rather than starting — the
start branch is guarded by the overlay handle's existence, so a second
overlay is never created. -/
theorem toggle_stop_idempotent :
    (∀ st : CtrlState, st.overlay = none → stop_highlighter st = st) ∧
    (∀ st : CtrlState,
      stop_highlighter (stop_highlighter st) = stop_highlighter st) ∧
    (∀ st : CtrlState, (stop_highlighter st).listeners = st.listeners) ∧
    (∀ st : Store, (initCtrl st).listeners = []) ∧
    (∀ (env : Env) (dlg : DialogState) (st : CtrlState) (ov : HighlightBar),
      st.overlay = some ov → (toggle_highlighter env dlg st).overlay = none) := by
  refine ⟨?_, ?_, ?_, fun _ => rfl, ?_⟩
  · intro st h
    simp [stop_highlighter, h]
  · intro st
    rcases h : st.overlay with _ | ov <;> simp [stop_highlighter, h]
  · intro st
    rcases h : st.overlay with _ | ov <;> simp [stop_highlighter, h]
  · intro env dlg st ov h
    simp [toggle_highlighter, stop_highlighter, h]

/-- Witness for C10 on concrete Idle and Active states. -/
theorem toggle_stop_idempotent_witness :
    stop_highlighter idleSt = idleSt ∧
    stop_highlighter (stop_highlighter activeSt) = stop_highlighter activeSt ∧
    (stop_highlighter activeSt).listeners = activeSt.listeners ∧
    (initCtrl emptyStore).listeners = [] ∧
    (toggle_highlighter env0 dlgSame activeSt).overlay = none :=
  ⟨toggle_stop_idempotent.1 idleSt rfl,
   toggle_stop_idempotent.2.1 activeSt,
   toggle_stop_idempotent.2.2.1 activeSt,
   toggle_stop_idempotent.2.2.2.1 emptyStore,
   toggle_stop_idempotent.2.2.2.2 env0 dlgSame activeSt hb0 rfl⟩
